import Mathlib

/-!
Verification development for the garage-door controller core
(homekit-ratgdo): a shallow embedding of the Security+ 2.0 comms
engine (src/src/comms.cpp) and of the obstruction sampler
(src/src/ratgdo.cpp), with theorems checking the natural-language
specification against it.

Machine integers are modelled as Nat with explicit reductions
modulo 2^28 where the source masks with 0xfffffff.
-/

namespace Ratgdo

/-! ## Packet data model (enums as used by comms.cpp) -/

/-- DoorState enum: door field of a decoded Status frame. -/
inductive DoorState where
  | Open | Closed | Stopped | Opening | Closing | Unknown
  deriving DecidableEq, Repr

/-- GarageDoorCurrentState enum. -/
inductive GarageDoorCurrentState where
  | CURR_OPEN | CURR_CLOSED | CURR_OPENING | CURR_CLOSING | CURR_STOPPED
  deriving DecidableEq, Repr

/-- GarageDoorTargetState enum. -/
inductive GarageDoorTargetState where
  | TGT_OPEN | TGT_CLOSED
  deriving DecidableEq, Repr

/-- LockCurrentState enum. -/
inductive LockCurrentState where
  | CURR_LOCKED | CURR_UNLOCKED
  deriving DecidableEq, Repr

/-- LockTargetState enum. -/
inductive LockTargetState where
  | TGT_LOCKED | TGT_UNLOCKED
  deriving DecidableEq, Repr

/-- DoorAction enum: payload of a DoorAction packet. -/
inductive DoorAction where
  | Open | Close | Stop | Toggle
  deriving DecidableEq, Repr

/-- LightState enum: payload of a Light packet. -/
inductive LightState where
  | Off | On | Toggle | Toggle2
  deriving DecidableEq, Repr

/-- LockState enum: payload of a Lock packet. -/
inductive LockState where
  | Off | On | Toggle
  deriving DecidableEq, Repr

/-- PacketCommand: the command kinds of the Security+ 2.0 codec. -/
inductive PacketCommand where
  | Status | GetStatus | GetOpenings | DoorAction | Light | Lock | Motion | Unknown
  deriving DecidableEq, Repr

/-- PacketData: tagged union of per-command payloads (union PacketDataValue
in the source, tagged by PacketDataType). -/
inductive PacketData where
  | noData
  | door_action (action : DoorAction) (pressed : Bool) (id : Nat)
  | light (light : LightState) (pressed : Bool)
  | lock (lock : LockState) (pressed : Bool)
  | status (door : DoorState) (light : Bool) (lock : Bool)
  deriving DecidableEq, Repr

/-- Packet: command kind, payload, and the device id (remote id) it is
built with (Packet(PacketCommand, PacketData, id) in the source). -/
structure Packet where
  m_pkt_cmd : PacketCommand
  m_data : PacketData
  remote_id : Nat
  deriving DecidableEq, Repr

/-- PacketAction: the scheduling envelope queued on pkt_q
(struct PacketAction in comms.cpp). -/
structure PacketAction where
  pkt : Packet
  inc_counter : Bool
  delay : Nat
  deriving DecidableEq, Repr

/-! ## Rolling-code keeper (comms.cpp globals rolling_code / last_saved_code) -/

/-- MAX_CODES_WITHOUT_FLASH_WRITE constant from comms.cpp. -/
def MAX_CODES_WITHOUT_FLASH_WRITE : Nat := 10

/-- The rolling-code keeper state: the comms.cpp globals rolling_code and
last_saved_code (both uint32, rolling kept below 2^28 by the mask). -/
structure CommsState where
  rolling_code : Nat
  last_saved_code : Nat
  deriving DecidableEq, Repr

/-- save_rolling_code from comms.cpp: writes rolling_code to NVRAM and
records it in last_saved_code. The durable write itself is external;
its observable effect on the keeper is last_saved_code = rolling_code. -/
def save_rolling_code (s : CommsState) : CommsState :=
  { s with last_saved_code := s.rolling_code }

/-- The save check at the end of every comms_loop_sec2 iteration:
save the rolling code if it grew by MAX_CODES_WITHOUT_FLASH_WRITE or more
since the last save. -/
def endOfLoop (s : CommsState) : CommsState :=
  if s.last_saved_code + MAX_CODES_WITHOUT_FLASH_WRITE ≤ s.rolling_code then
    save_rolling_code s
  else s

/-- Startup of the Security+ 2.0 comms task (comms_task_entry, rolling-code
part): read the persisted value R (a uint32), bump nonzero values by
MAX_CODES_WITHOUT_FLASH_WRITE — a uint32 addition, so it wraps modulo
2^32 — then save_rolling_code immediately. -/
def comms_task_entry_rolling (R : Nat) : CommsState :=
  save_rolling_code
    { rolling_code := if R ≠ 0 then (R + MAX_CODES_WITHOUT_FLASH_WRITE) % 2 ^ 32 else 0,
      last_saved_code := 0 }

/-! ## Security+ 2.0 codec (spec-modelled: Packet.h / secplus2.h are
not under src/) -/

/-- Modelled from the spec: the bit content of the 32 data bits carried by a
payload variant; the codec checks it against its bit width. Only the
door-action id is a caller-supplied numeric field. -/
def dataBits : PacketData → Nat
  | PacketData.noData => 0
  | PacketData.door_action _ _ id => id
  | PacketData.light _ _ => 0
  | PacketData.lock _ _ => 0
  | PacketData.status _ _ _ => 0

/-- Modelled from the spec: Packet.encode succeeds iff all fields fit their
bit widths — the rolling value is carried as 32 bits, the device id in the
low 20 bits of the fixed value, and the payload in 32 data bits; otherwise
it reports EncodingRangeError (nonzero return in the source). -/
def encodeOk (pkt : Packet) (rolling : Nat) : Bool :=
  decide (rolling < 2 ^ 32) && decide (pkt.remote_id < 2 ^ 20) &&
    decide (dataBits pkt.m_data < 2 ^ 32)

/-! ## transmitSec2 and the transmit half of comms_loop_sec2 -/

/-- Result of transmitSec2: the boolean the function returns, the frame
written to the UART (the packet with the rolling value consumed at encode
time), if any, and the updated keeper state. -/
structure TxResult where
  ok : Bool
  sent : Option (Packet × Nat)
  st : CommsState
  deriving DecidableEq, Repr

/-- transmitSec2 from comms.cpp. The collision check on the RX pin is
commented out in the source (TODO FIXME), so the rx_level input is read by
nobody: the frame is written whenever it encodes, the rolling code is
incremented (mod 2^28) whenever inc_counter is set — even when encoding
failed — and the function returns true unconditionally. -/
def transmitSec2 (rx_level : Bool) (s : CommsState) (pkt_ac : PacketAction) : TxResult :=
  let _ := rx_level
  let sent := if encodeOk pkt_ac.pkt s.rolling_code then
      some (pkt_ac.pkt, s.rolling_code)
    else none
  let s1 := if pkt_ac.inc_counter then
      { s with rolling_code := (s.rolling_code + 1) % 0x10000000 }
    else s
  { ok := true, sent := sent, st := s1 }

/-- The transmit branch of one comms_loop_sec2 iteration: dequeue one
PacketAction, transmit it, re-queue it at the front on failure
(xQueueSendToFront), then run the end-of-loop save check. -/
def comms_loop_sec2_tx (rx_level : Bool) (s : CommsState) (q : List PacketAction) :
    CommsState × List PacketAction :=
  match q with
  | [] => (endOfLoop s, [])
  | pkt_ac :: rest =>
    let r := transmitSec2 rx_level s pkt_ac
    let q1 := if r.ok then rest else pkt_ac :: rest
    (endOfLoop r.st, q1)

/-- States of the rolling-code keeper reachable from the first-boot state
(rolling = 0, last_saved = 0) under the comms loop dynamics: iterations
that transmit one queued PacketAction, and iterations that do not transmit
(inbound data); both end with the save check. -/
inductive Reachable : CommsState → Prop where
  | init : Reachable ⟨0, 0⟩
  | tx (rx_level : Bool) (pkt_ac : PacketAction) {s : CommsState} :
      Reachable s → Reachable (endOfLoop (transmitSec2 rx_level s pkt_ac).st)
  | idle {s : CommsState} : Reachable s → Reachable (endOfLoop s)

/-- The claimed rolling-code invariant: last_saved ≤ rolling ≤ last_saved + 10. -/
def RollingInv (s : CommsState) : Prop :=
  s.last_saved_code ≤ s.rolling_code ∧
    s.rolling_code ≤ s.last_saved_code + MAX_CODES_WITHOUT_FLASH_WRITE

instance (s : CommsState) : Decidable (RollingInv s) := by
  unfold RollingInv; infer_instance

/-! ## GarageDoor observable state and the control surface -/

/-- struct GarageDoor (fields as used by comms.cpp / ratgdo.cpp). -/
structure GarageDoor where
  active : Bool
  current_state : GarageDoorCurrentState
  target_state : GarageDoorTargetState
  current_lock : LockCurrentState
  target_lock : LockTargetState
  light : Bool
  motion : Bool
  motion_timer : Nat
  obstructed : Bool
  has_motion_sensor : Bool
  deriving DecidableEq, Repr

/-- State touched by the control-surface operations of comms.cpp:
the garage_door singleton, the TTC globals, the outbound packet queue
pkt_q, and the read-only configuration (id_code, security type). -/
structure SysState where
  garage_door : GarageDoor
  TTCcountdown : Nat
  TTCwasLightOn : Bool
  pkt_q : List PacketAction
  id_code : Nat
  secType : Nat
  deriving DecidableEq, Repr

/-- xQueueSendToBack on pkt_q (created with capacity 5): append unless the
queue is full; on errQUEUE_FULL the caller logs and drops the action. -/
def xQueueSendToBack (q : List PacketAction) (pkt_ac : PacketAction) : List PacketAction :=
  if q.length < 5 then q ++ [pkt_ac] else q

/-- send_get_status from comms.cpp: only with Security+ 2.0, enqueue a
GetStatus with counter increment and no post-delay. -/
def send_get_status (st : SysState) : SysState :=
  if st.secType = 2 then
    let pkt_ac : PacketAction := ⟨⟨PacketCommand.GetStatus, PacketData.noData, st.id_code⟩, true, 0⟩
    { st with pkt_q := xQueueSendToBack st.pkt_q pkt_ac }
  else st

/-- door_command from comms.cpp: enqueue the pressed action
(inc_counter = false, delay 250 ms), then the release (inc_counter = true,
delay 40 ms), a second release when the security type is 1, and finally a
GetStatus via send_get_status. -/
def door_command (st : SysState) (action : DoorAction) : SysState :=
  let pressed : PacketAction :=
    ⟨⟨PacketCommand.DoorAction, PacketData.door_action action true 1, st.id_code⟩, false, 250⟩
  let release : PacketAction :=
    ⟨⟨PacketCommand.DoorAction, PacketData.door_action action false 1, st.id_code⟩, true, 40⟩
  let st1 := { st with pkt_q := xQueueSendToBack st.pkt_q pressed }
  let st2 := { st1 with pkt_q := xQueueSendToBack st1.pkt_q release }
  let st3 := if st.secType = 1 then
      { st2 with pkt_q := xQueueSendToBack st2.pkt_q release }
    else st2
  send_get_status st3

/-- open_door from comms.cpp. The block cancelling an active time-to-close
countdown is commented out in the source (TODO), so the function goes
straight to the safety checks: return if already open, stop if closing,
otherwise send the Open door command. -/
def open_door (st : SysState) : SysState :=
  if st.garage_door.current_state = GarageDoorCurrentState.CURR_OPEN then st
  else if st.garage_door.current_state = GarageDoorCurrentState.CURR_CLOSING then
    door_command st DoorAction.Stop
  else
    door_command st DoorAction.Open

/-- set_lock from comms.cpp: build the Lock payload and assign target_lock
from the requested value, then return without enqueuing when current_lock
already matches; otherwise enqueue the press/release/release sequence
(Security+ 1.0) or one Lock packet plus GetStatus (Security+ 2.0).
The source leaves the pressed field unset in the 2.0 packet; modelled
as false. -/
def set_lock (value : Nat) (st : SysState) : SysState :=
  let lockState := if value ≠ 0 then LockState.On else LockState.Off
  let st := if value ≠ 0 then
      { st with garage_door := { st.garage_door with target_lock := LockTargetState.TGT_LOCKED } }
    else
      { st with garage_door := { st.garage_door with target_lock := LockTargetState.TGT_UNLOCKED } }
  if lockState = LockState.On ∧ st.garage_door.current_lock = LockCurrentState.CURR_LOCKED then st
  else if lockState = LockState.Off ∧ st.garage_door.current_lock = LockCurrentState.CURR_UNLOCKED then st
  else if st.secType = 1 then
    let press : PacketAction :=
      ⟨⟨PacketCommand.Lock, PacketData.lock lockState true, st.id_code⟩, true, 3000⟩
    let release : PacketAction :=
      ⟨⟨PacketCommand.Lock, PacketData.lock lockState false, st.id_code⟩, true, 40⟩
    let q := xQueueSendToBack (xQueueSendToBack (xQueueSendToBack st.pkt_q press) release) release
    { st with pkt_q := q }
  else
    let pkt_ac : PacketAction :=
      ⟨⟨PacketCommand.Lock, PacketData.lock lockState false, st.id_code⟩, true, 0⟩
    send_get_status { st with pkt_q := xQueueSendToBack st.pkt_q pkt_ac }

/-- set_light from comms.cpp: build the Light payload, return without
enqueuing when garage_door.light already matches; otherwise enqueue the
press/release/release sequence (Security+ 1.0) or one Light packet plus
GetStatus (Security+ 2.0). The source leaves the pressed field unset in
the 2.0 packet; modelled as false. -/
def set_light (value : Bool) (st : SysState) : SysState :=
  let lightState := if value then LightState.On else LightState.Off
  if lightState = LightState.On ∧ st.garage_door.light = true then st
  else if lightState = LightState.Off ∧ st.garage_door.light = false then st
  else if st.secType = 1 then
    let press : PacketAction :=
      ⟨⟨PacketCommand.Light, PacketData.light lightState true, st.id_code⟩, true, 250⟩
    let release : PacketAction :=
      ⟨⟨PacketCommand.Light, PacketData.light lightState false, st.id_code⟩, true, 40⟩
    let q := xQueueSendToBack (xQueueSendToBack (xQueueSendToBack st.pkt_q press) release) release
    { st with pkt_q := q }
  else
    let pkt_ac : PacketAction :=
      ⟨⟨PacketCommand.Light, PacketData.light lightState false, st.id_code⟩, true, 0⟩
    send_get_status { st with pkt_q := xQueueSendToBack st.pkt_q pkt_ac }

/-! ## Status packet handling (comms_loop_sec2, PacketCommand::Status case) -/

/-- Which homekit notifications the Status case of comms_loop_sec2 fires. -/
structure StatusNotifs where
  current_door : Bool
  target_door : Bool
  active : Bool
  light : Bool
  target_lock : Bool
  current_lock : Bool
  deriving DecidableEq, Repr

/-- The PacketCommand::Status case of comms_loop_sec2: derive
current/target door state from the packet (leaving both unchanged on
DoorState::Unknown), cancel an active TTC countdown when closing, activate
the door on first contact, and apply the packet light and lock fields,
notifying only on change. -/
def handle_status (st : SysState) (door : DoorState) (plight plock : Bool) :
    SysState × StatusNotifs :=
  let gd := st.garage_door
  let cs := match door with
    | DoorState.Open => GarageDoorCurrentState.CURR_OPEN
    | DoorState.Closed => GarageDoorCurrentState.CURR_CLOSED
    | DoorState.Stopped => GarageDoorCurrentState.CURR_STOPPED
    | DoorState.Opening => GarageDoorCurrentState.CURR_OPENING
    | DoorState.Closing => GarageDoorCurrentState.CURR_CLOSING
    | DoorState.Unknown => gd.current_state
  let ts := match door with
    | DoorState.Open => GarageDoorTargetState.TGT_OPEN
    | DoorState.Closed => GarageDoorTargetState.TGT_CLOSED
    | DoorState.Stopped => GarageDoorTargetState.TGT_OPEN
    | DoorState.Opening => GarageDoorTargetState.TGT_OPEN
    | DoorState.Closing => GarageDoorTargetState.TGT_CLOSED
    | DoorState.Unknown => gd.target_state
  let ttc := if cs = GarageDoorCurrentState.CURR_CLOSING ∧ 0 < st.TTCcountdown then 0
    else st.TTCcountdown
  let activated := ¬gd.active
  let ts := if activated then
      (if cs = GarageDoorCurrentState.CURR_OPENING ∨ cs = GarageDoorCurrentState.CURR_OPEN then
        GarageDoorTargetState.TGT_OPEN
      else GarageDoorTargetState.TGT_CLOSED)
    else ts
  let gd1 := if activated then { gd with active := true } else gd
  let doorChanged := ts ≠ gd.target_state ∨ cs ≠ gd.current_state
  let gd2 := if doorChanged then { gd1 with target_state := ts, current_state := cs } else gd1
  let lightChanged := plight ≠ gd.light
  let gd3 := if lightChanged then { gd2 with light := plight } else gd2
  let cl := if plock then LockCurrentState.CURR_LOCKED else LockCurrentState.CURR_UNLOCKED
  let tl := if plock then LockTargetState.TGT_LOCKED else LockTargetState.TGT_UNLOCKED
  let lockChanged := cl ≠ gd.current_lock
  let gd4 := if lockChanged then { gd3 with target_lock := tl, current_lock := cl } else gd3
  ({ st with garage_door := gd4, TTCcountdown := ttc },
   { current_door := decide doorChanged, target_door := decide doorChanged,
     active := decide activated, light := decide lightChanged,
     target_lock := decide lockChanged, current_lock := decide lockChanged })

/-! ## Obstruction sampler (ratgdo.cpp) -/

/-- struct obstruction_sensor_t from ratgdo.cpp. -/
structure ObstructionSensor where
  low_count : Nat
  last_asleep : Nat
  deriving DecidableEq, Repr

/-- State read and written by obstruction_timer: the pulse counter and
asleep timestamp, the static last_millis of the sampler, and the
garage_door.obstructed flag. -/
structure ObstState where
  sensor : ObstructionSensor
  last_millis : Nat
  obstructed : Bool
  deriving DecidableEq, Repr

/-- obstruction_timer from ratgdo.cpp. Runs the sampling body once the
50 ms CHECK_PERIOD elapsed: more than PULSES_LOWER_LIMIT low pulses mean
clear; zero pulses with the pin low record the asleep timestamp, zero
pulses with the pin high for more than 700 ms since last asleep mean
obstructed; any other count is inconclusive. The returned Bool records
whether notify_homekit_obstruction fired (transitions only). -/
def obstruction_timer (current_millis : Nat) (pin_high : Bool) (s : ObstState) :
    ObstState × Bool :=
  if current_millis - s.last_millis > 50 then
    let r :=
      if s.sensor.low_count > 3 then
        if s.obstructed then ((false : Bool), s.sensor.last_asleep, true) else (s.obstructed, s.sensor.last_asleep, false)
      else if s.sensor.low_count = 0 then
        if ¬pin_high then (s.obstructed, current_millis, false)
        else if current_millis - s.sensor.last_asleep > 700 then
          if ¬s.obstructed then ((true : Bool), s.sensor.last_asleep, true)
          else (s.obstructed, s.sensor.last_asleep, false)
        else (s.obstructed, s.sensor.last_asleep, false)
      else (s.obstructed, s.sensor.last_asleep, false)
    ({ sensor := ⟨0, r.2.1⟩, last_millis := current_millis, obstructed := r.1 }, r.2.2)
  else (s, false)

/-! ## Concrete fixtures used to evaluate the model -/

/-- A pressed door-action PacketAction, as door_command builds it. -/
def fixture_door_pressed : PacketAction :=
  ⟨⟨PacketCommand.DoorAction, PacketData.door_action DoorAction.Open true 1, 0x88539⟩, false, 250⟩

/-- A released door-action PacketAction with inc_counter set, as door_command
builds it. -/
def fixture_release : PacketAction :=
  ⟨⟨PacketCommand.DoorAction, PacketData.door_action DoorAction.Open false 1, 0x88539⟩, true, 40⟩

/-- A PacketAction whose packet fails to encode: its device id 0x100000 needs
21 bits, exceeding the 20-bit field of the codec. -/
def fixture_bad_packet : PacketAction :=
  ⟨⟨PacketCommand.DoorAction, PacketData.door_action DoorAction.Open false 1, 0x100000⟩, true, 40⟩

/-- The GetStatus PacketAction with inc_counter, as send_get_status builds it. -/
def inc_get_status : PacketAction :=
  ⟨⟨PacketCommand.GetStatus, PacketData.noData, 0x539⟩, true, 0⟩

/-- A system state in the middle of a time-to-close countdown: the user closed
an open door with ttc configured, the countdown is at 6 ticks (3 s left), the
light is blinking (currently on) and the pre-countdown light state was off. -/
def fixture_ttc_state : SysState :=
  { garage_door :=
      { active := true, current_state := GarageDoorCurrentState.CURR_OPEN,
        target_state := GarageDoorTargetState.TGT_OPEN,
        current_lock := LockCurrentState.CURR_UNLOCKED,
        target_lock := LockTargetState.TGT_UNLOCKED,
        light := true, motion := false, motion_timer := 0,
        obstructed := false, has_motion_sensor := false },
    TTCcountdown := 6, TTCwasLightOn := false, pkt_q := [], id_code := 0x539, secType := 2 }

/-- A system state whose lock is currently locked while target_lock still
says unlocked (the opener echoed a Status before set_lock ran). -/
def fixture_locked_state : SysState :=
  { garage_door :=
      { active := true, current_state := GarageDoorCurrentState.CURR_CLOSED,
        target_state := GarageDoorTargetState.TGT_CLOSED,
        current_lock := LockCurrentState.CURR_LOCKED,
        target_lock := LockTargetState.TGT_UNLOCKED,
        light := false, motion := false, motion_timer := 0,
        obstructed := false, has_motion_sensor := false },
    TTCcountdown := 0, TTCwasLightOn := false, pkt_q := [], id_code := 0x539, secType := 2 }

/-! ## Theorems -/

/-- C2 counterexample: the boot bump is a uint32 addition, so at the
representable non-zero persisted value R = 0xFFFFFFFB it wraps: post-boot
rolling is 5, not R + 10, and post-boot rolling ≥ R + 10 fails. -/
theorem startup_bump_wraps :
    (0xFFFFFFFB : Nat) ≠ 0 ∧
    (comms_task_entry_rolling 0xFFFFFFFB).rolling_code = 5 ∧
    ¬((0xFFFFFFFB : Nat) + 10 ≤ (comms_task_entry_rolling 0xFFFFFFFB).rolling_code) := by
  decide

/-- C2 (amended): at startup of the Security+ 2.0 comms task, a non-zero
persisted (uint32) rolling value R is bumped to (R + 10) mod 2^32 and
immediately persisted (last_saved = rolling) — so post-boot
rolling = R + 10 whenever R + 10 < 2^32, the wrap occurring only at
R ≥ 2^32 − 10; a zero persisted value is left at 0. -/
theorem startup_rolling_bump (R : Nat) (hR : R < 2 ^ 32) :
    (R ≠ 0 →
      (comms_task_entry_rolling R).rolling_code = (R + 10) % 2 ^ 32 ∧
      (R + 10 < 2 ^ 32 → (comms_task_entry_rolling R).rolling_code = R + 10) ∧
      (comms_task_entry_rolling R).last_saved_code = (comms_task_entry_rolling R).rolling_code) ∧
    (R = 0 →
      (comms_task_entry_rolling R).rolling_code = 0 ∧
      (comms_task_entry_rolling R).last_saved_code = 0) := by
  constructor
  · intro hne
    have e : (comms_task_entry_rolling R).rolling_code = (R + 10) % 2 ^ 32 := by
      simp [comms_task_entry_rolling, save_rolling_code, MAX_CODES_WITHOUT_FLASH_WRITE, hne]
    refine ⟨e, ?_, ?_⟩
    · intro h10
      rw [e]
      exact Nat.mod_eq_of_lt h10
    · simp [comms_task_entry_rolling, save_rolling_code]
  · intro h0
    simp [comms_task_entry_rolling, save_rolling_code, h0]

/-- Witness for C2 (amended) at the persisted value 57: post-boot rolling is
67 and is the saved value. -/
theorem startup_rolling_bump_witness :
    (comms_task_entry_rolling 57).rolling_code = 57 + 10 ∧
    (comms_task_entry_rolling 57).last_saved_code = (comms_task_entry_rolling 57).rolling_code :=
  ⟨((startup_rolling_bump 57 (by norm_num)).1 (by decide)).2.1 (by norm_num),
   ((startup_rolling_bump 57 (by norm_num)).1 (by decide)).2.2⟩

/-- C3 counterexample: a PacketAction whose packet fails to encode
(device id beyond 20 bits) is not written to the UART and is dropped, but
with increment_counter=true the rolling counter IS incremented (5 → 6),
contrary to the claim. -/
theorem encode_fail_still_increments :
    encodeOk fixture_bad_packet.pkt 5 = false ∧
    fixture_bad_packet.inc_counter = true ∧
    (transmitSec2 false ⟨5, 5⟩ fixture_bad_packet).sent = none ∧
    (transmitSec2 false ⟨5, 5⟩ fixture_bad_packet).ok = true ∧
    (transmitSec2 false ⟨5, 5⟩ fixture_bad_packet).st.rolling_code = 6 := by
  decide

/-- C3 amended: when the packet fails to encode, no frame is written to the
UART and the action is dropped (transmitSec2 returns true, so the dispatcher
does not re-queue it), but the rolling counter is still incremented whenever
increment_counter=true. -/
theorem encode_fail_drops_frame (rx_level : Bool) (s : CommsState) (pkt_ac : PacketAction)
    (h : encodeOk pkt_ac.pkt s.rolling_code = false) :
    (transmitSec2 rx_level s pkt_ac).sent = none ∧
    (transmitSec2 rx_level s pkt_ac).ok = true ∧
    (transmitSec2 rx_level s pkt_ac).st.rolling_code =
      (if pkt_ac.inc_counter then (s.rolling_code + 1) % 2 ^ 28 else s.rolling_code) := by
  unfold transmitSec2
  refine ⟨by simp [h], rfl, ?_⟩
  by_cases hinc : pkt_ac.inc_counter <;> simp [hinc]

/-- Witness for C3 amended, at the failing fixture packet. -/
theorem encode_fail_drops_frame_witness :
    (transmitSec2 false ⟨5, 5⟩ fixture_bad_packet).sent = none ∧
    (transmitSec2 false ⟨5, 5⟩ fixture_bad_packet).ok = true ∧
    (transmitSec2 false ⟨5, 5⟩ fixture_bad_packet).st.rolling_code =
      (if fixture_bad_packet.inc_counter then (5 + 1) % 2 ^ 28 else 5) :=
  encode_fail_drops_frame false ⟨5, 5⟩ fixture_bad_packet (by decide)

/-- C4: the transmitter never samples the receive pin (the collision check is
commented out in the source with a TODO FIXME): at the failing input where
the bus is driven by another station (rx_level = true), transmitSec2 still
writes the frame, returns true rather than signalling Collision, the
dispatcher consumes the action instead of re-queuing it at the front, and an
inc_counter action still increments the rolling counter. -/
theorem collision_check_disabled :
    (transmitSec2 true ⟨5, 5⟩ fixture_door_pressed).ok = true ∧
    (transmitSec2 true ⟨5, 5⟩ fixture_door_pressed).sent =
      some (fixture_door_pressed.pkt, 5) ∧
    (comms_loop_sec2_tx true ⟨5, 5⟩ [fixture_door_pressed]).2 = [] ∧
    (transmitSec2 true ⟨5, 5⟩ fixture_release).st.rolling_code = 6 := by
  decide

/-- C5: the TTC-cancellation block of open_door is commented out in the
source (TODO): at the failing input — an open door with the time-to-close
countdown at 6 ticks, light blinking on, pre-countdown light state off —
open_door returns with the state completely unchanged: the countdown is not
cancelled, the light is not restored to the saved state, and nothing is
enqueued. -/
theorem open_door_ttc_not_cancelled :
    open_door fixture_ttc_state = fixture_ttc_state ∧
    (open_door fixture_ttc_state).TTCcountdown = 6 ∧
    (open_door fixture_ttc_state).garage_door.light = true ∧
    (open_door fixture_ttc_state).TTCwasLightOn = false ∧
    (open_door fixture_ttc_state).pkt_q = [] := by
  decide

/-- C6: a door command enqueues exactly one pressed PacketAction
(pressed = true, post-delay 250 ms, inc_counter = false) immediately followed
by a release PacketAction (pressed = false, post-delay 40 ms,
inc_counter = true); with security type 1 the release is enqueued a second
time (with security type 2 a GetStatus follows instead). -/
theorem door_command_enqueues_pair (st : SysState) (action : DoorAction)
    (hq : st.pkt_q.length + 3 ≤ 5) (hsec : st.secType = 1 ∨ st.secType = 2) :
    (door_command st action).pkt_q =
      st.pkt_q ++
        [⟨⟨PacketCommand.DoorAction, PacketData.door_action action true 1, st.id_code⟩, false, 250⟩,
         ⟨⟨PacketCommand.DoorAction, PacketData.door_action action false 1, st.id_code⟩, true, 40⟩] ++
        (if st.secType = 1 then
          [⟨⟨PacketCommand.DoorAction, PacketData.door_action action false 1, st.id_code⟩, true, 40⟩]
        else
          [⟨⟨PacketCommand.GetStatus, PacketData.noData, st.id_code⟩, true, 0⟩]) := by
  have h1 : st.pkt_q.length < 5 := by omega
  have h2 : st.pkt_q.length + 1 < 5 := by omega
  have h3 : st.pkt_q.length + 1 + 1 < 5 := by omega
  rcases hsec with h | h <;>
    simp [door_command, send_get_status, xQueueSendToBack, h, h1, h2, h3]

/-- Witness for C6: a door command issued from fixture_ttc_state (empty
queue, security type 2). -/
theorem door_command_enqueues_pair_witness :
    (door_command fixture_ttc_state DoorAction.Open).pkt_q =
      fixture_ttc_state.pkt_q ++
        [⟨⟨PacketCommand.DoorAction, PacketData.door_action DoorAction.Open true 1,
            fixture_ttc_state.id_code⟩, false, 250⟩,
         ⟨⟨PacketCommand.DoorAction, PacketData.door_action DoorAction.Open false 1,
            fixture_ttc_state.id_code⟩, true, 40⟩] ++
        (if fixture_ttc_state.secType = 1 then
          [⟨⟨PacketCommand.DoorAction, PacketData.door_action DoorAction.Open false 1,
              fixture_ttc_state.id_code⟩, true, 40⟩]
        else
          [⟨⟨PacketCommand.GetStatus, PacketData.noData, fixture_ttc_state.id_code⟩, true, 0⟩]) :=
  door_command_enqueues_pair fixture_ttc_state DoorAction.Open (by decide) (by decide)

/-- C8: set_light is a no-op (no PacketAction enqueued, no observable state
touched) when garage_door.light already equals the requested value; otherwise
on Security+ 2.0 it enqueues exactly one Light packet followed by one
GetStatus, touching nothing else. -/
theorem set_light_spec (value : Bool) (st : SysState) :
    (st.garage_door.light = value → set_light value st = st) ∧
    (st.garage_door.light ≠ value → st.secType = 2 → st.pkt_q.length + 2 ≤ 5 →
      (set_light value st).garage_door = st.garage_door ∧
      (set_light value st).TTCcountdown = st.TTCcountdown ∧
      (set_light value st).TTCwasLightOn = st.TTCwasLightOn ∧
      (set_light value st).pkt_q =
        st.pkt_q ++
          [⟨⟨PacketCommand.Light,
              PacketData.light (if value then LightState.On else LightState.Off) false,
              st.id_code⟩, true, 0⟩,
           ⟨⟨PacketCommand.GetStatus, PacketData.noData, st.id_code⟩, true, 0⟩]) := by
  constructor
  · intro hsame
    cases value <;> simp_all [set_light]
  · intro hdiff hsec hlen
    have h1 : st.pkt_q.length < 5 := by omega
    have h2 : st.pkt_q.length + 1 < 5 := by omega
    cases value <;> simp_all [set_light, send_get_status, xQueueSendToBack]

/-- Witness for C8: from fixture_ttc_state (light on): requesting on is a
no-op; requesting off enqueues the Light packet and the GetStatus. -/
theorem set_light_spec_witness :
    set_light true fixture_ttc_state = fixture_ttc_state ∧
    (set_light false fixture_ttc_state).pkt_q =
      fixture_ttc_state.pkt_q ++
        [⟨⟨PacketCommand.Light,
            PacketData.light (if false then LightState.On else LightState.Off) false,
            fixture_ttc_state.id_code⟩, true, 0⟩,
         ⟨⟨PacketCommand.GetStatus, PacketData.noData, fixture_ttc_state.id_code⟩, true, 0⟩] :=
  ⟨(set_light_spec true fixture_ttc_state).1 (by decide),
   (((set_light_spec false fixture_ttc_state).2 (by decide) (by decide) (by decide)).2.2.2)⟩

/-- C9: set_lock assigns target_lock from the requested value before its
no-op check against current_lock, so a call that enqueues nothing (because
current_lock already matches) still mutates target_lock. -/
theorem set_lock_target_assigned (value : Nat) (st : SysState) :
    ((set_lock value st).garage_door.target_lock =
      (if value ≠ 0 then LockTargetState.TGT_LOCKED else LockTargetState.TGT_UNLOCKED)) ∧
    (value ≠ 0 → st.garage_door.current_lock = LockCurrentState.CURR_LOCKED →
      (set_lock value st).pkt_q = st.pkt_q ∧
      (set_lock value st).garage_door =
        { st.garage_door with target_lock := LockTargetState.TGT_LOCKED }) ∧
    (value = 0 → st.garage_door.current_lock = LockCurrentState.CURR_UNLOCKED →
      (set_lock value st).pkt_q = st.pkt_q ∧
      (set_lock value st).garage_door =
        { st.garage_door with target_lock := LockTargetState.TGT_UNLOCKED }) := by
  refine ⟨?_, ?_, ?_⟩
  · by_cases hv : value = 0 <;>
      simp [set_lock, send_get_status, xQueueSendToBack, hv] <;> split_ifs <;> simp
  · intro hv hl
    simp [set_lock, send_get_status, hv, hl]
  · intro hv hl
    simp [set_lock, send_get_status, hv, hl]

/-- Witness for C9: value 1 while current_lock is already locked and
target_lock was unlocked: nothing is enqueued, yet target_lock flips. -/
theorem set_lock_target_assigned_witness :
    ((set_lock 1 fixture_locked_state).garage_door.target_lock =
      (if (1 : Nat) ≠ 0 then LockTargetState.TGT_LOCKED else LockTargetState.TGT_UNLOCKED)) ∧
    ((set_lock 1 fixture_locked_state).pkt_q = fixture_locked_state.pkt_q ∧
      (set_lock 1 fixture_locked_state).garage_door =
        { fixture_locked_state.garage_door with target_lock := LockTargetState.TGT_LOCKED }) :=
  ⟨(set_lock_target_assigned 1 fixture_locked_state).1,
   (set_lock_target_assigned 1 fixture_locked_state).2.1 (by decide) (by decide)⟩

/-- C7: once the 50 ms sampling period has elapsed: more than 3 low pulses
make the state clear (notifying only if it was obstructed); zero pulses with
the raw pin low record the asleep timestamp and change nothing else; zero
pulses with the pin high for more than 700 ms since last asleep make the
state obstructed (notifying only if it was clear); a count of 1 to 3 pulses
leaves the obstructed state unchanged and notifies nobody. -/
theorem obstruction_timer_spec (current_millis : Nat) (pin_high : Bool) (s : ObstState)
    (helapsed : current_millis - s.last_millis > 50) :
    (s.sensor.low_count > 3 →
      (obstruction_timer current_millis pin_high s).1.obstructed = false ∧
      ((obstruction_timer current_millis pin_high s).2 = true ↔ s.obstructed = true)) ∧
    (s.sensor.low_count = 0 → pin_high = false →
      (obstruction_timer current_millis pin_high s).1.sensor.last_asleep = current_millis ∧
      (obstruction_timer current_millis pin_high s).1.obstructed = s.obstructed ∧
      (obstruction_timer current_millis pin_high s).2 = false) ∧
    (s.sensor.low_count = 0 → pin_high = true →
      current_millis - s.sensor.last_asleep > 700 →
      (obstruction_timer current_millis pin_high s).1.obstructed = true ∧
      ((obstruction_timer current_millis pin_high s).2 = true ↔ s.obstructed = false)) ∧
    (0 < s.sensor.low_count → s.sensor.low_count ≤ 3 →
      (obstruction_timer current_millis pin_high s).1.obstructed = s.obstructed ∧
      (obstruction_timer current_millis pin_high s).2 = false) := by
  refine ⟨?_, ?_, ?_, ?_⟩
  · intro hc
    have hc3 : ¬s.sensor.low_count = 0 := by omega
    cases hobs : s.obstructed <;>
      simp [obstruction_timer, helapsed, hc, hc3, hobs]
  · intro hc hpin
    simp [obstruction_timer, helapsed, hc, hpin]
  · intro hc hpin hasleep
    cases hobs : s.obstructed <;>
      simp [obstruction_timer, helapsed, hc, hpin, hasleep, hobs]
  · intro hc1 hc3
    have hgt : ¬s.sensor.low_count > 3 := by omega
    have hz : ¬s.sensor.low_count = 0 := by omega
    simp [obstruction_timer, helapsed, hgt, hz]

/-- Witness for C7: a concrete sampling period at t = 800 ms with the pin
high, no pulses counted, last asleep at t = 0 and the state previously
clear — the sampler declares an obstruction and notifies. -/
theorem obstruction_timer_spec_witness :
    (obstruction_timer 800 true ⟨⟨0, 0⟩, 0, false⟩).1.obstructed = true ∧
    ((obstruction_timer 800 true ⟨⟨0, 0⟩, 0, false⟩).2 = true ↔ false = false) :=
  (obstruction_timer_spec 800 true ⟨⟨0, 0⟩, 0, false⟩ (by decide)).2.2.1 rfl rfl (by decide)

/-- C10: when the door is already active, a Status packet whose door field is
Unknown leaves current_state and target_state unchanged and fires no door or
active notifications, while the packet light and lock fields are still
applied, with notifications exactly on change. -/
theorem status_unknown_door_spec (st : SysState) (plight plock : Bool)
    (hactive : st.garage_door.active = true) :
    (handle_status st DoorState.Unknown plight plock).1.garage_door.current_state =
      st.garage_door.current_state ∧
    (handle_status st DoorState.Unknown plight plock).1.garage_door.target_state =
      st.garage_door.target_state ∧
    (handle_status st DoorState.Unknown plight plock).2.current_door = false ∧
    (handle_status st DoorState.Unknown plight plock).2.target_door = false ∧
    (handle_status st DoorState.Unknown plight plock).2.active = false ∧
    (handle_status st DoorState.Unknown plight plock).1.garage_door.light = plight ∧
    ((handle_status st DoorState.Unknown plight plock).2.light = true ↔
      plight ≠ st.garage_door.light) ∧
    (handle_status st DoorState.Unknown plight plock).1.garage_door.current_lock =
      (if plock then LockCurrentState.CURR_LOCKED else LockCurrentState.CURR_UNLOCKED) ∧
    ((handle_status st DoorState.Unknown plight plock).2.current_lock = true ↔
      (if plock then LockCurrentState.CURR_LOCKED else LockCurrentState.CURR_UNLOCKED) ≠
        st.garage_door.current_lock) := by
  by_cases hlc : (if plock then LockCurrentState.CURR_LOCKED else LockCurrentState.CURR_UNLOCKED)
      = st.garage_door.current_lock <;>
    by_cases hlight : plight = st.garage_door.light <;>
    simp [handle_status, hactive, hlc, hlight]

/-- Witness for C10: from fixture_locked_state (active, closed, locked),
a Status with Unknown door, light on, lock off: door state untouched, light
applied with notification, lock applied with notification. -/
theorem status_unknown_door_spec_witness :
    (handle_status fixture_locked_state DoorState.Unknown true false).1.garage_door.current_state =
      fixture_locked_state.garage_door.current_state ∧
    (handle_status fixture_locked_state DoorState.Unknown true false).1.garage_door.target_state =
      fixture_locked_state.garage_door.target_state ∧
    (handle_status fixture_locked_state DoorState.Unknown true false).2.current_door = false ∧
    (handle_status fixture_locked_state DoorState.Unknown true false).2.target_door = false ∧
    (handle_status fixture_locked_state DoorState.Unknown true false).2.active = false ∧
    (handle_status fixture_locked_state DoorState.Unknown true false).1.garage_door.light = true ∧
    ((handle_status fixture_locked_state DoorState.Unknown true false).2.light = true ↔
      true ≠ fixture_locked_state.garage_door.light) ∧
    (handle_status fixture_locked_state DoorState.Unknown true false).1.garage_door.current_lock =
      (if false then LockCurrentState.CURR_LOCKED else LockCurrentState.CURR_UNLOCKED) ∧
    ((handle_status fixture_locked_state DoorState.Unknown true false).2.current_lock = true ↔
      (if false then LockCurrentState.CURR_LOCKED else LockCurrentState.CURR_UNLOCKED) ≠
        fixture_locked_state.garage_door.current_lock) :=
  status_unknown_door_spec fixture_locked_state true false (by decide)

/-- One inc-counter transmit iteration of the comms loop, in closed form,
when the incremented rolling value does not wrap the 28-bit mask. -/
theorem tx_step_eq (rx_level : Bool) (r ls : Nat) (h1 : r + 1 < 0x10000000) :
    endOfLoop (transmitSec2 rx_level ⟨r, ls⟩ inc_get_status).st =
      if ls + 10 ≤ r + 1 then (⟨r + 1, r + 1⟩ : CommsState) else ⟨r + 1, ls⟩ := by
  unfold transmitSec2 endOfLoop save_rolling_code inc_get_status MAX_CODES_WITHOUT_FLASH_WRITE
  simp [Nat.mod_eq_of_lt h1]

/-- From a freshly saved state, ten inc-counter transmits advance the keeper
to the next freshly saved state (the save fires on the tenth). -/
theorem reach_add_ten (r : Nat) (h : Reachable ⟨r, r⟩) (hr : r + 10 < 0x10000000) :
    Reachable ⟨r + 10, r + 10⟩ := by
  have step : ∀ k : Nat, k < 9 → Reachable ⟨r + k, r⟩ → Reachable ⟨r + (k + 1), r⟩ := by
    intro k hk hreach
    have hh := Reachable.tx false inc_get_status hreach
    rw [tx_step_eq false (r + k) r (by omega), if_neg (by omega)] at hh
    have e : r + k + 1 = r + (k + 1) := by omega
    rwa [e] at hh
  have s0 : Reachable ⟨r + 0, r⟩ := by
    rw [show r + 0 = r by omega]
    exact h
  have s9 : Reachable ⟨r + 9, r⟩ :=
    step 8 (by omega) (step 7 (by omega) (step 6 (by omega) (step 5 (by omega)
      (step 4 (by omega) (step 3 (by omega) (step 2 (by omega) (step 1 (by omega)
        (step 0 (by omega) s0))))))))
  have hh := Reachable.tx false inc_get_status s9
  rw [tx_step_eq false (r + 9) r (by omega), if_pos (by omega)] at hh
  have e : r + 9 + 1 = r + 10 := by omega
  rwa [e] at hh

/-- Every freshly saved multiple of ten below the 28-bit bound is reachable
from the first-boot state. -/
theorem reach_ten_mul : ∀ k : Nat, 10 * k < 0x10000000 → Reachable ⟨10 * k, 10 * k⟩ := by
  intro k
  induction k with
  | zero =>
    intro _
    simpa using Reachable.init
  | succ n ih =>
    intro hk
    have h1 : 10 * n < 0x10000000 := by omega
    have h2 := reach_add_ten (10 * n) (ih h1) (by omega)
    have e : 10 * n + 10 = 10 * (n + 1) := by ring
    rwa [e] at h2

/-- The state just after the 28-bit counter wraps (rolling back at 0 while
last_saved still holds 268435450) is reachable from the first-boot state. -/
theorem reachable_wrap_state : Reachable ⟨0, 268435450⟩ := by
  have h0 : Reachable ⟨268435450, 268435450⟩ := by
    have hh := reach_ten_mul 26843545 (by norm_num)
    norm_num at hh
    exact hh
  have step1 : ∀ a b : Nat, a + 1 < 0x10000000 → ¬(b + 10 ≤ a + 1) →
      Reachable ⟨a, b⟩ → Reachable ⟨a + 1, b⟩ := by
    intro a b h1 h2 hre
    have hh := Reachable.tx false inc_get_status hre
    rwa [tx_step_eq false a b h1, if_neg h2] at hh
  have h1 := step1 268435450 268435450 (by norm_num) (by norm_num) h0
  norm_num at h1
  have h2 := step1 268435451 268435450 (by norm_num) (by norm_num) h1
  norm_num at h2
  have h3 := step1 268435452 268435450 (by norm_num) (by norm_num) h2
  norm_num at h3
  have h4 := step1 268435453 268435450 (by norm_num) (by norm_num) h3
  norm_num at h4
  have h5 := step1 268435454 268435450 (by norm_num) (by norm_num) h4
  norm_num at h5
  have hw := Reachable.tx false inc_get_status h5
  have e : endOfLoop (transmitSec2 false ⟨268435455, 268435450⟩ inc_get_status).st
      = (⟨0, 268435450⟩ : CommsState) := by decide
  rwa [e] at hw

/-- C1 counterexample: after 268435456 inc-counter transmits from the
first-boot state, the rolling counter wraps from 0xFFFFFFF to 0 while
last_saved still holds 268435450 — a reachable state, outside any save
operation, violating the claimed invariant last_saved ≤ rolling. -/
theorem rolling_invariant_fails_at_wrap :
    Reachable ⟨0, 268435450⟩ ∧ ¬RollingInv ⟨0, 268435450⟩ :=
  ⟨reachable_wrap_state, by decide⟩

/-- The end-of-iteration save check re-establishes the invariant, and the
strict bound rolling < last_saved + 10, from any state whose unsaved margin
is at most 11. -/
theorem endOfLoop_inv (t : CommsState) (hle : t.last_saved_code ≤ t.rolling_code)
    (hup : t.rolling_code ≤ t.last_saved_code + 11) :
    RollingInv (endOfLoop t) ∧
    (endOfLoop t).rolling_code < (endOfLoop t).last_saved_code + 10 := by
  unfold endOfLoop save_rolling_code RollingInv MAX_CODES_WITHOUT_FLASH_WRITE
  split_ifs with hs
  · refine ⟨⟨?_, ?_⟩, ?_⟩ <;> simp
  · refine ⟨⟨?_, ?_⟩, ?_⟩ <;> omega

/-- C1 (amended): every transmit with increment_counter=true performs
rolling ← (rolling + 1) mod 2^28; the check after every event-loop iteration
issues a durable save (last_saved := rolling) whenever
rolling ≥ last_saved + 10; from the strict bound rolling < last_saved + 10
that the save check re-establishes, a transmit preserves the invariant
last_saved ≤ rolling ≤ last_saved + 10, and a full loop iteration restores
both the invariant and the strict bound — all provided the increment does
not wrap the 28-bit counter (at the wrap the invariant is lost until the
counter catches back up, see the counterexample). -/
theorem rolling_counter_policy (rx_level : Bool) (s : CommsState) (pkt_ac : PacketAction)
    (hInv : RollingInv s) (hNoWrap : s.rolling_code + 1 < 2 ^ 28) :
    ((transmitSec2 rx_level s pkt_ac).st.rolling_code =
      if pkt_ac.inc_counter then (s.rolling_code + 1) % 2 ^ 28 else s.rolling_code) ∧
    (∀ t : CommsState, t.last_saved_code + 10 ≤ t.rolling_code →
      (endOfLoop t).last_saved_code = t.rolling_code) ∧
    (s.rolling_code < s.last_saved_code + 10 →
      RollingInv (transmitSec2 rx_level s pkt_ac).st) ∧
    RollingInv (endOfLoop (transmitSec2 rx_level s pkt_ac).st) ∧
    (endOfLoop (transmitSec2 rx_level s pkt_ac).st).rolling_code <
      (endOfLoop (transmitSec2 rx_level s pkt_ac).st).last_saved_code + 10 := by
  obtain ⟨ha, hb⟩ := hInv
  have hb10 : s.rolling_code ≤ s.last_saved_code + 10 := by
    simpa [MAX_CODES_WITHOUT_FLASH_WRITE] using hb
  have h28 : (2 : Nat) ^ 28 = 268435456 := by norm_num
  rw [h28] at hNoWrap
  have hmod : (s.rolling_code + 1) % 0x10000000 = s.rolling_code + 1 :=
    Nat.mod_eq_of_lt hNoWrap
  have hst : (transmitSec2 rx_level s pkt_ac).st.last_saved_code = s.last_saved_code := by
    by_cases hinc : pkt_ac.inc_counter <;> simp [transmitSec2, hinc]
  have hrol : (transmitSec2 rx_level s pkt_ac).st.rolling_code = s.rolling_code + 1 ∨
      (transmitSec2 rx_level s pkt_ac).st.rolling_code = s.rolling_code := by
    by_cases hinc : pkt_ac.inc_counter <;> simp [transmitSec2, hinc, hmod]
  have hle : (transmitSec2 rx_level s pkt_ac).st.last_saved_code ≤
      (transmitSec2 rx_level s pkt_ac).st.rolling_code := by
    rcases hrol with h | h <;> rw [hst, h] <;> omega
  have hup : (transmitSec2 rx_level s pkt_ac).st.rolling_code ≤
      (transmitSec2 rx_level s pkt_ac).st.last_saved_code + 11 := by
    rcases hrol with h | h <;> rw [hst, h] <;> omega
  refine ⟨?_, ?_, ?_, (endOfLoop_inv _ hle hup).1, (endOfLoop_inv _ hle hup).2⟩
  · by_cases hinc : pkt_ac.inc_counter <;> simp [transmitSec2, hinc, h28]
  · intro t ht
    simp [endOfLoop, save_rolling_code, MAX_CODES_WITHOUT_FLASH_WRITE, ht]
  · intro h9
    unfold RollingInv MAX_CODES_WITHOUT_FLASH_WRITE
    rcases hrol with h | h <;> rw [hst, h] <;> omega

/-- Witness for C1 (amended) at the first-boot state with an inc-counter
GetStatus transmit. -/
theorem rolling_counter_policy_witness :
    RollingInv (⟨0, 0⟩ : CommsState) ∧
    RollingInv (endOfLoop (transmitSec2 false ⟨0, 0⟩ inc_get_status).st) :=
  ⟨by decide,
   (rolling_counter_policy false ⟨0, 0⟩ inc_get_status (by decide) (by norm_num)).2.2.2.1⟩

end Ratgdo
